import Mathlib

set_option linter.unusedVariables false

/-!
Shallow embedding of the checkpoint-coverage route model and dynamic-insertion
workflow of the repository (src/static/js/vrp_testing.js), together with the
theorems settling the frozen claims about it.

Conventions of the embedding:
* Map coordinates are scaled to integers (`Int`): the claims under scrutiny
  only carry coordinates around, compare them and display them; no claim
  depends on floating-point rounding.
* JavaScript `parseInt` results are modelled as `Option Int` (`none` = NaN).
* DOM state that the claims mention (the processed-pair list, the current
  solution, the backlog array `dynamicLocationPairs`) is carried in an explicit
  `ClientState`; presentation-only fields (marker styling, html layout) are
  not modelled.
* Network completion is modelled by feeding the response to the `.then`
  callback of the corresponding fetch, embedded as a pure function on
  `ClientState`; the in-flight window itself is modelled separately for the
  concurrency claim (`ResolverFlow`, `InsertFlow`).
-/

namespace VrpTesting

/-- A map coordinate, scaled to integers (see file header). -/
structure Coord where
  lat : Int
  lon : Int
deriving DecidableEq, Repr

/-- A candidate checkpoint as returned by the resolve endpoint
(response item shape used by displayProcessedPair: id, lat, lon, confidence;
confidence is scaled to an integer). -/
structure Checkpoint where
  id : Nat
  lat : Int
  lon : Int
  confidence : Int
deriving DecidableEq, Repr

/-- One stop of a route as consumed by displayTestResults: its coordinates and
the demand clusters it serves (stops whose clusters_served field is absent in
the JSON are embedded with an empty list, matching the Array.isArray guard at
vrp_testing.js:636). -/
structure Stop where
  lat : Int
  lon : Int
  clusters_served : List Nat
deriving DecidableEq, Repr

/-- A vehicle route: the ordered stop sequence (depot implicit, never in
stops). Presentation fields (distance, detailed geometry) are not modelled. -/
structure Route where
  stops : List Stop
deriving DecidableEq, Repr

/-- A solution as handled by the dynamic-insertion workflow: its routes and the
clusters it explicitly reports as uncovered (missing_clusters). -/
structure Solution where
  routes : List Route
  missing_clusters : List Nat
deriving DecidableEq, Repr

/-- One side (pickup or dropoff) of a processed pair, as stored in
dynamicLocationPairs by processNewPair (vrp_testing.js:963): raw coordinates,
the owning cluster when one was found, and the ranked candidate checkpoints.
There is no field for a chosen checkpoint: the client stores the whole
candidate list and nothing else. -/
structure PairSide where
  lat : Int
  lon : Int
  cluster_id : Option Nat
  checkpoints : List Checkpoint
deriving DecidableEq, Repr

/-- A processed pickup/dropoff pair (the pair_info object pushed onto
dynamicLocationPairs). -/
structure PairInfo where
  pickup : PairSide
  dropoff : PairSide
deriving DecidableEq, Repr

/-!
Coverage rendering, from displayTestResults (vrp_testing.js:630-724).
-/

/-- One entry of the clusterCoverage map built at vrp_testing.js:634-649: the
route index and the coordinates of a stop serving the cluster. -/
structure CoverageEntry where
  routeIdx : Nat
  lat : Int
  lon : Int
deriving DecidableEq, Repr

/-- The clusterCoverage accumulation of displayTestResults
(vrp_testing.js:634-649), flattened to (clusterId, entry) records in iteration
order: for each route, for each stop, one record per served cluster. -/
def coverageEntriesOf (s : Solution) : List (Nat × CoverageEntry) :=
  (s.routes.enum.map (fun ri =>
    (ri.2.stops.map (fun stop =>
      stop.clusters_served.map (fun c =>
        (c, CoverageEntry.mk ri.1 stop.lat stop.lon)))).flatten)).flatten

/-- The entries recorded for one cluster id (the clusterCoverage[clusterId]
array; an id never pushed yields the empty list, matching an undefined key). -/
def clusterEntries (s : Solution) (c : Nat) : List CoverageEntry :=
  ((coverageEntriesOf s).filter (fun e => e.1 == c)).map (fun e => e.2)

/-- The rendered status of one row of the Cluster Coverage Summary table
(vrp_testing.js:686-714): Skipped, Covered, or Unknown. -/
inductive RowStatus where
  | skipped
  | covered
  | unknown
deriving DecidableEq, Repr

/-- The status branch of the per-cluster row rendering
(vrp_testing.js:686-714): missing clusters are Skipped; clusters with at
least one covering checkpoint entry are Covered; otherwise the row renders
the Coverage Unknown badge. -/
def coverageRowStatus (missing : Bool) (checkpoints : List CoverageEntry) :
    RowStatus :=
  if missing then RowStatus.skipped
  else if checkpoints.length > 0 then RowStatus.covered
  else RowStatus.unknown

/-- The row status displayTestResults computes for one cluster id of a
solution. -/
def statusOfCluster (s : Solution) (c : Nat) : RowStatus :=
  coverageRowStatus (s.missing_clusters.contains c) (clusterEntries s c)

/-- The checkpoint text of displayProcessedPair (vrp_testing.js:984-985): a
comma-separated CP list when candidates exist, the literal None otherwise. -/
def checkpointListText (cps : List Checkpoint) : String :=
  if cps.length > 0 then
    String.intercalate ", " (cps.map (fun cp => "CP " ++ toString cp.id))
  else "None"

/-- Modelled from the spec: the Coverage Model read-side check isFullyCovered
of section 4.5 is not implemented anywhere under src/ (only the spec states
it); per the spec it is true iff every cluster id of allClusters appears
either in the coverage union or in missing_clusters. The coverage union is
taken from the code's own clusterCoverage accumulation. -/
def isFullyCovered (s : Solution) (allClusters : List Nat) : Bool :=
  allClusters.all (fun c =>
    ((coverageEntriesOf s).map (fun e => e.1)).contains c
      || s.missing_clusters.contains c)

/-!
Client state and the insertion response handling
(displayTestResults vrp_testing.js:584-601, handleDynamicInsertion
vrp_testing.js:1513-1552).
-/

/-- The module-level client state the claims mention: the active solution
(currentVrpSolution; the insertion handler only runs once it is non-null,
vrp_testing.js:1484), the backlog dynamicLocationPairs, and the rendered
processed-pair list (dynamic-locations-list), modelled as the list of its
entries. -/
structure ClientState where
  currentVrpSolution : Solution
  dynamicLocationPairs : List PairInfo
  dynamicListHtml : List String
deriving DecidableEq, Repr

/-- The state effect of displayTestResults (vrp_testing.js:584-601): before
any branching on testType or on the solution, it unconditionally clears the
processed-pair list display (line 593) and resets dynamicLocationPairs to the
empty array (line 594). The solution and testType arguments drive only the
rendering, not this reset. -/
def displayTestResults (st : ClientState) (solution : Solution)
    (testType : String) : ClientState :=
  { st with dynamicLocationPairs := [], dynamicListHtml := [] }

/-- A response of the insert_dynamic endpoint, discriminated on its status
field (vrp_testing.js:1521). -/
inductive InsertResponse where
  | success (updated_solution : Solution)
  | error (message : String)
deriving DecidableEq, Repr

/-- The response callback of handleDynamicInsertion (vrp_testing.js:1519-1543).
On status success: currentVrpSolution is set to the returned solution (1522),
displayTestResults is called on it (1525), then the pairs and the list display
are cleared again (1528-1530). On status error: an alert is shown and
displayTestResults is called on the retained currentVrpSolution (1535). -/
def handleInsertionResponse (st : ClientState) (resp : InsertResponse) :
    ClientState :=
  match resp with
  | InsertResponse.success sol =>
      let st1 : ClientState := { st with currentVrpSolution := sol }
      let st2 := displayTestResults st1 sol "dynamic"
      { st2 with dynamicLocationPairs := [], dynamicListHtml := [] }
  | InsertResponse.error _ =>
      displayTestResults st st.currentVrpSolution "dynamic"

/-!
The send side of handleDynamicInsertion (vrp_testing.js:1448-1517) and the
insertion-point dropdown population (populateInsertionPoints,
vrp_testing.js:1352-1379).
-/

/-- The request body assembled at vrp_testing.js:1497-1508 (the fields the
claims mention; prepared_data_ref and algorithm are opaque context). -/
structure InsertionRequest where
  current_solution : Solution
  new_location_pairs : List PairInfo
  target_vehicle_index : Int
  insertion_point_index : Int
deriving DecidableEq, Repr

/-- Outcome of the send side: either no fetch is issued (with the reason of
the guard that fired) or the request is dispatched. -/
inductive SendOutcome where
  | noRequest (reason : String)
  | sent (req : InsertionRequest)
deriving DecidableEq, Repr

/-- The guard sequence of handleDynamicInsertion before the fetch
(vrp_testing.js:1459-1508): parse the vehicle and insertion-point values
(none = NaN aborts, 1465-1474), require a non-empty backlog (1478-1481),
require the current solution and test config (1484-1487), then dispatch the
request. No other validation exists: no range check on the parsed insertion
index and no per-pair binding check. -/
def handleDynamicInsertionSend (vehicleVal insertionPointVal : Option Int)
    (dynamicLocationPairs : List PairInfo)
    (currentVrpSolution : Option Solution) (haveConfig : Bool) : SendOutcome :=
  match vehicleVal with
  | none => SendOutcome.noRequest "invalid_vehicle"
  | some tv =>
    match insertionPointVal with
    | none => SendOutcome.noRequest "invalid_insertion_point"
    | some ip =>
      if dynamicLocationPairs.isEmpty then SendOutcome.noRequest "no_pairs"
      else
        match currentVrpSolution with
        | none => SendOutcome.noRequest "missing_context"
        | some sol =>
          if haveConfig then
            SendOutcome.sent
              (InsertionRequest.mk sol dynamicLocationPairs tv ip)
          else SendOutcome.noRequest "missing_context"

/-- The option values of the insertion-point dropdown built by
populateInsertionPoints (vrp_testing.js:1363-1378): 0 (after the warehouse)
followed by index+1 for each stop of the target route. -/
def populateInsertionPointValues (stops : List Stop) : List Nat :=
  0 :: stops.enum.map (fun p => p.1 + 1)

/-!
The pair-acquisition state machine (setupDynamicPicking vrp_testing.js:850-875,
handleDynamicMapClick 878-901, resetPickingState 904-921, processNewPair
924-977). Resolution of a pair is a server call (process_dynamic_pair); its
outcome is a parameter resolvePair of the step function, and in this machine
the completion of that call is modelled synchronously at the second click, as
the success branch (append pair_info, 963) and the failure branch (alert, no
append, 969) of the response callback. The pending-fetch window is modelled
separately below (ResolverFlow) for the concurrency claim.
-/

/-- The dynamicPickingState variable (vrp_testing.js:1). -/
inductive PickState where
  | idle
  | pickingPickup
  | pickingDropoff
deriving DecidableEq, Repr

/-- The module state of the picking interaction: the picking state, the
temporary coordinates, and the backlog dynamicLocationPairs. -/
structure PickingMachine where
  state : PickState
  tempPickup : Option Coord
  tempDropoff : Option Coord
  pairs : List PairInfo
deriving DecidableEq, Repr

/-- resetPickingState (vrp_testing.js:904-921): back to idle, temporary
coordinates and markers discarded; the backlog is untouched. -/
def resetPickingState (m : PickingMachine) : PickingMachine :=
  { m with state := PickState.idle, tempPickup := none, tempDropoff := none }

/-- processNewPair with its response callback (vrp_testing.js:924-977): on a
success response the returned pair_info is pushed onto dynamicLocationPairs
(963); on an error response an alert is shown and nothing is stored (969). -/
def processNewPair (resolvePair : Coord → Coord → Option PairInfo)
    (m : PickingMachine) (pu dr : Coord) : PickingMachine :=
  match resolvePair pu dr with
  | some pair => { m with pairs := m.pairs ++ [pair] }
  | none => m

/-- The user events of the picking interaction: a click on the add-pair
button (startPicking when idle, cancel otherwise, vrp_testing.js:859-871) and
a click on the map at a coordinate. -/
inductive PickEvent where
  | buttonClick
  | mapClick (p : Coord)
deriving DecidableEq, Repr

/-- One event step. buttonClick: from idle enter picking_pickup (861), else
cancel via resetPickingState (869). mapClick (handleDynamicMapClick,
878-901): in picking_pickup record the pickup coordinate and move to
picking_dropoff (882-887) with no resolver involvement; in picking_dropoff
record the dropoff, process the pair (898) and reset (899); in idle the map
click does nothing to this state. -/
def stepPick (resolvePair : Coord → Coord → Option PairInfo)
    (m : PickingMachine) (e : PickEvent) : PickingMachine :=
  match e with
  | PickEvent.buttonClick =>
      match m.state with
      | PickState.idle => { m with state := PickState.pickingPickup }
      | _ => resetPickingState m
  | PickEvent.mapClick p =>
      match m.state with
      | PickState.idle => m
      | PickState.pickingPickup =>
          { m with tempPickup := some p, state := PickState.pickingDropoff }
      | PickState.pickingDropoff =>
          let m1 := { m with tempDropoff := some p }
          let m2 :=
            match m1.tempPickup with
            | some pu => processNewPair resolvePair m1 pu p
            | none => m1
          resetPickingState m2

/-- Folding a list of events through the machine. -/
def runPick (resolvePair : Coord → Coord → Option PairInfo)
    (m : PickingMachine) (es : List PickEvent) : PickingMachine :=
  es.foldl (stepPick resolvePair) m

/-!
In-flight request models for the concurrency claim.
-/

/-- The picking interaction with the pending process_dynamic_pair fetches made
explicit: after the second map click, processNewPair starts a fetch (946) and
resetPickingState runs immediately (899), so picking is available again while
the fetch is still pending; nothing is disabled during the call. inflight
counts the pending resolve fetches. -/
structure ResolverFlow where
  state : PickState
  tempPickup : Option Coord
  inflight : Nat
deriving DecidableEq, Repr

/-- Events of the resolver flow: the two click kinds plus the arrival of one
resolve response. -/
inductive ResolverEvent where
  | buttonClick
  | mapClick (p : Coord)
  | resolveResponse
deriving DecidableEq, Repr

/-- One step of the resolver flow, from the same source lines as stepPick:
the second map click increments the pending-fetch count and immediately
resets the picking state; a response decrements it. No step consults any
busy guard, because the source has none for this call. -/
def stepResolverFlow (s : ResolverFlow) (e : ResolverEvent) : ResolverFlow :=
  match e with
  | ResolverEvent.buttonClick =>
      match s.state with
      | PickState.idle => { s with state := PickState.pickingPickup }
      | _ => { s with state := PickState.idle, tempPickup := none }
  | ResolverEvent.mapClick p =>
      match s.state with
      | PickState.idle => s
      | PickState.pickingPickup =>
          { s with tempPickup := some p, state := PickState.pickingDropoff }
      | PickState.pickingDropoff =>
          { s with state := PickState.idle, tempPickup := none,
                   inflight := s.inflight + 1 }
  | ResolverEvent.resolveResponse => { s with inflight := s.inflight - 1 }

/-- Folding events through the resolver flow. -/
def runResolverFlow (s : ResolverFlow) (es : List ResolverEvent) :
    ResolverFlow :=
  es.foldl stepResolverFlow s

/-- The insert-button flow of handleDynamicInsertion: insertDisabled is the
disabled attribute of insert-dynamic-btn, inflight the pending insert_dynamic
fetches. -/
structure InsertFlow where
  insertDisabled : Bool
  inflight : Nat
deriving DecidableEq, Repr

/-- Events of the insertion flow: a click on the insert button (a disabled
button fires no click), the completion of an insertion fetch (either
status), and the completion of a pair-processing fetch. -/
inductive InsertEvent where
  | insertClick
  | insertResponse
  | pairProcessed
deriving DecidableEq, Repr

/-- One step of the insertion flow. insertClick: ignored while the button is
disabled; otherwise the handler disables the button (vrp_testing.js:1491-1494)
and dispatches the fetch. insertResponse: on both the success and the error
path displayTestResults has cleared dynamicLocationPairs (594, and again 1528
on success), so the recreated button ends disabled (1421, 1549). pairProcessed:
a successful process_dynamic_pair response re-enables the insert button
(966-967). -/
def stepInsertFlow (s : InsertFlow) (e : InsertEvent) : InsertFlow :=
  match e with
  | InsertEvent.insertClick =>
      if s.insertDisabled then s
      else { insertDisabled := true, inflight := s.inflight + 1 }
  | InsertEvent.insertResponse =>
      { insertDisabled := true, inflight := s.inflight - 1 }
  | InsertEvent.pairProcessed => { s with insertDisabled := false }

/-- Folding events through the insertion flow. -/
def runInsertFlow (s : InsertFlow) (es : List InsertEvent) : InsertFlow :=
  es.foldl stepInsertFlow s

/-!
Candidate ordering of the resolve call.
-/

/-- Squared Euclidean distance between a position and a checkpoint; comparing
squared distances is equivalent to comparing Euclidean distances. -/
def distSq (pos : Coord) (cp : Checkpoint) : Int :=
  (cp.lat - pos.lat) * (cp.lat - pos.lat)
    + (cp.lon - pos.lon) * (cp.lon - pos.lon)

/-- Modelled from the spec: the candidate ordering of the resolve endpoint
(process_dynamic_pair) is produced server-side and that code is not under
src/; per the spec, candidate a precedes candidate b when a has strictly
greater confidence, or equal confidence and a not farther from the picked
position. -/
def candBefore (pos : Coord) (a b : Checkpoint) : Prop :=
  b.confidence < a.confidence
    ∨ (a.confidence = b.confidence ∧ distSq pos a ≤ distSq pos b)

instance candBeforeDecidable (pos : Coord) : DecidableRel (candBefore pos) :=
  fun a b => by unfold candBefore; infer_instance

/-- Modelled from the spec: the resolve call returns the candidate
checkpoints sorted by descending confidence, ties broken by ascending
Euclidean distance to the picked position. -/
def resolveCandidates (pos : Coord) (cps : List Checkpoint) :
    List Checkpoint :=
  List.insertionSort (candBefore pos) cps

/-!
Concrete fixtures used by counterexamples and witnesses.
-/

/-- A high-confidence candidate checkpoint. -/
def cpHigh : Checkpoint := Checkpoint.mk 1 10 10 90

/-- A low-confidence candidate checkpoint. -/
def cpLow : Checkpoint := Checkpoint.mk 2 20 20 40

/-- A concrete picked coordinate. -/
def ptA : Coord := Coord.mk 3 4

/-- Another concrete picked coordinate. -/
def ptB : Coord := Coord.mk 5 6

/-- A pair side with an empty candidate list (no checkpoint reaches its
cluster). -/
def emptySide : PairSide := PairSide.mk 0 0 (some 7) []

/-- A processed pair with no candidates on either side: no checkpoint can be
bound on either side in any sense. -/
def unboundPair : PairInfo := PairInfo.mk emptySide emptySide

/-- A processed pair with one candidate per side. -/
def samplePair : PairInfo :=
  PairInfo.mk (PairSide.mk 3 4 (some 7) [cpHigh])
    (PairSide.mk 5 6 (some 9) [cpLow])

/-- A solution whose single route has two stops, covering clusters 7 and 9. -/
def solPrev : Solution :=
  Solution.mk [Route.mk [Stop.mk 0 0 [7], Stop.mk 1 1 [9]]] []

/-- A returned solution in which cluster 7 appears neither in any stop
coverage nor in missing_clusters. -/
def solBad : Solution := Solution.mk [Route.mk [Stop.mk 1 1 [9]]] []

/-- A resolver whose every resolution fails (error response from
process_dynamic_pair). -/
def failingResolver : Coord → Coord → Option PairInfo := fun _ _ => none

/-- A resolver whose every resolution succeeds with samplePair. -/
def okResolver : Coord → Coord → Option PairInfo := fun _ _ => some samplePair

/-- A resolver whose every resolution succeeds with a pair carrying empty
candidate lists on both sides. -/
def emptyCandResolver : Coord → Coord → Option PairInfo :=
  fun _ _ => some unboundPair

/-- The picking machine before any interaction. -/
def initMachine : PickingMachine := PickingMachine.mk PickState.idle none none []

/-- Client state holding solPrev and one processed pair. -/
def stPrior : ClientState := ClientState.mk solPrev [samplePair] ["pair entry"]

/-- The resolver flow before any interaction. -/
def initResolverFlow : ResolverFlow := ResolverFlow.mk PickState.idle none 0

/-- Two complete pick interactions with no resolve response in between. -/
def overlapTrace : List ResolverEvent :=
  [ResolverEvent.buttonClick, ResolverEvent.mapClick ptA,
   ResolverEvent.mapClick ptB, ResolverEvent.buttonClick,
   ResolverEvent.mapClick ptA, ResolverEvent.mapClick ptB]

/-!
Claim theorems.
-/

/-- C1, counterexample: a success-status response carrying solBad, which
leaves cluster 7 uncovered (isFullyCovered is false over the active clusters
7 and 9), is nevertheless adopted as the new currentVrpSolution, and the
previously held solution is not retained. -/
theorem c1_uncovered_solution_adopted :
    isFullyCovered solBad [7, 9] = false
      ∧ (handleInsertionResponse (ClientState.mk solPrev [] [])
          (InsertResponse.success solBad)).currentVrpSolution = solBad
      ∧ solBad ≠ solPrev := by
  decide

/-- C1 as amended: on any success-status insertion response the client adopts
the returned solution as currentVrpSolution unconditionally; no isFullyCovered
check is performed on receipt, so a coverage-violating solution is adopted
like any other and the prior solution is discarded. -/
theorem c1_success_adopted_without_coverage_check :
    ∀ (st : ClientState) (sol : Solution),
      (handleInsertionResponse st (InsertResponse.success sol)).currentVrpSolution
        = sol := by
  intro st sol
  rfl

/-- C2, counterexample: a backlog consisting of one pair with an empty
candidate list on both sides (so neither side can have a bound checkpoint) is
not rejected: the insertion request is dispatched containing that pair. -/
theorem c2_unbound_pair_sent :
    unboundPair.pickup.checkpoints = []
      ∧ unboundPair.dropoff.checkpoints = []
      ∧ handleDynamicInsertionSend (some 0) (some 0) [unboundPair]
          (some solPrev) true
        = SendOutcome.sent (InsertionRequest.mk solPrev [unboundPair] 0 0) := by
  decide

/-- C2 as amended: the client has no checkpoint-binding step: a processed
pair stores only the candidate lists, and before sending, the only
backlog-related validation is non-emptiness — any non-empty backlog is sent
in full, unfiltered, regardless of binding, while an empty backlog aborts
with no request. -/
theorem c2_send_ignores_binding :
    ∀ (tv ip : Int) (pairs : List PairInfo) (sol : Solution),
      pairs ≠ [] →
      handleDynamicInsertionSend (some tv) (some ip) pairs (some sol) true
          = SendOutcome.sent (InsertionRequest.mk sol pairs tv ip)
        ∧ handleDynamicInsertionSend (some tv) (some ip) [] (some sol) true
          = SendOutcome.noRequest "no_pairs" := by
  intro tv ip pairs sol h
  constructor
  · cases pairs with
    | nil => exact absurd rfl h
    | cons a l => rfl
  · rfl

/-- C2 witness: the amended statement at a concrete non-empty backlog. -/
theorem c2_send_ignores_binding_witness :
    handleDynamicInsertionSend (some 0) (some 2) [samplePair] (some solPrev)
        true
      = SendOutcome.sent (InsertionRequest.mk solPrev [samplePair] 0 2)
      ∧ handleDynamicInsertionSend (some 0) (some 2) [] (some solPrev) true
        = SendOutcome.noRequest "no_pairs" :=
  c2_send_ignores_binding 0 2 [samplePair] solPrev (by decide)

/-- C3, counterexample: with a resolver that fails on every position, the
pickup click still leaves PickingPickup (the machine is in PickingDropoff)
and the pickup coordinate is recorded — the claimed stay-on-failure behavior
does not occur because no resolution happens at the pickup click at all. -/
theorem c3_pickup_click_advances_despite_failing_resolver :
    (runPick failingResolver initMachine
        [PickEvent.buttonClick, PickEvent.mapClick ptA]).state
        = PickState.pickingDropoff
      ∧ (runPick failingResolver initMachine
          [PickEvent.buttonClick, PickEvent.mapClick ptA]).state
          ≠ PickState.pickingPickup
      ∧ (runPick failingResolver initMachine
          [PickEvent.buttonClick, PickEvent.mapClick ptA]).tempPickup
          = some ptA := by
  decide

/-- C3 as amended: the pickup click records the raw coordinate and
transitions to PickingDropoff unconditionally, with no Candidate Resolver
involvement (the step is identical for any two resolvers); the resolver is
invoked once for the whole pair at the dropoff click, and when that
resolution fails the pair is discarded entirely (nothing appended) with the
machine reset to Idle. -/
theorem c3_pickup_click_never_resolves :
    ∀ (r1 r2 : Coord → Coord → Option PairInfo) (m m2 : PickingMachine)
      (p pu q : Coord),
      m.state = PickState.pickingPickup →
      m2.state = PickState.pickingDropoff →
      m2.tempPickup = some pu →
      r1 pu q = none →
      stepPick r1 m (PickEvent.mapClick p)
          = { m with tempPickup := some p,
                     state := PickState.pickingDropoff }
        ∧ stepPick r1 m (PickEvent.mapClick p)
          = stepPick r2 m (PickEvent.mapClick p)
        ∧ (stepPick r1 m2 (PickEvent.mapClick q)).pairs = m2.pairs
        ∧ (stepPick r1 m2 (PickEvent.mapClick q)).state = PickState.idle := by
  intro r1 r2 m m2 p pu q h1 h2 htp hr
  obtain ⟨s, tp, td, ps⟩ := m
  obtain ⟨s2, tp2, td2, ps2⟩ := m2
  dsimp at h1 h2 htp
  subst h1
  subst h2
  subst htp
  refine ⟨rfl, rfl, ?_, ?_⟩
  · simp [stepPick, processNewPair, resetPickingState, hr]
  · simp [stepPick, processNewPair, resetPickingState, hr]

/-- C3 witness: the amended statement at concrete machines, a failing
resolver and concrete coordinates. -/
theorem c3_pickup_click_never_resolves_witness :
    stepPick failingResolver
        (PickingMachine.mk PickState.pickingPickup none none [])
        (PickEvent.mapClick ptA)
      = PickingMachine.mk PickState.pickingDropoff (some ptA) none []
      ∧ stepPick failingResolver
          (PickingMachine.mk PickState.pickingPickup none none [])
          (PickEvent.mapClick ptA)
        = stepPick okResolver
            (PickingMachine.mk PickState.pickingPickup none none [])
            (PickEvent.mapClick ptA)
      ∧ (stepPick failingResolver
          (PickingMachine.mk PickState.pickingDropoff (some ptA) none [])
          (PickEvent.mapClick ptB)).pairs = []
      ∧ (stepPick failingResolver
          (PickingMachine.mk PickState.pickingDropoff (some ptA) none [])
          (PickEvent.mapClick ptB)).state = PickState.idle := by
  have h := c3_pickup_click_never_resolves failingResolver okResolver
    (PickingMachine.mk PickState.pickingPickup none none [])
    (PickingMachine.mk PickState.pickingDropoff (some ptA) none [])
    ptA ptA ptB rfl rfl rfl rfl
  exact h

/-- C4 (confirmed): from Idle, [startPicking, pointSelected(valid),
pointSelected(valid)] ends in Idle with exactly the resolved pair appended to
the backlog, and [startPicking, pointSelected(valid), cancel] ends in Idle
with the backlog unchanged and the half-built pair discarded. -/
theorem c4_picking_sequences_deterministic :
    ∀ (r : Coord → Coord → Option PairInfo) (m : PickingMachine)
      (p q : Coord) (pr : PairInfo),
      m.state = PickState.idle →
      r p q = some pr →
      (runPick r m
          [PickEvent.buttonClick, PickEvent.mapClick p,
           PickEvent.mapClick q]).state = PickState.idle
        ∧ (runPick r m
            [PickEvent.buttonClick, PickEvent.mapClick p,
             PickEvent.mapClick q]).pairs = m.pairs ++ [pr]
        ∧ (runPick r m
            [PickEvent.buttonClick, PickEvent.mapClick p,
             PickEvent.buttonClick]).state = PickState.idle
        ∧ (runPick r m
            [PickEvent.buttonClick, PickEvent.mapClick p,
             PickEvent.buttonClick]).pairs = m.pairs
        ∧ (runPick r m
            [PickEvent.buttonClick, PickEvent.mapClick p,
             PickEvent.buttonClick]).tempPickup = none := by
  intro r m p q pr h hr
  obtain ⟨s, tp, td, ps⟩ := m
  dsimp at h
  subst h
  refine ⟨?_, ?_, rfl, rfl, rfl⟩
  · simp [runPick, stepPick, processNewPair, resetPickingState, hr]
  · simp [runPick, stepPick, processNewPair, resetPickingState, hr]

/-- C4 witness: both sequences run from the initial machine with a resolver
that succeeds with samplePair. -/
theorem c4_picking_sequences_deterministic_witness :
    (runPick okResolver initMachine
        [PickEvent.buttonClick, PickEvent.mapClick ptA,
         PickEvent.mapClick ptB]).state = PickState.idle
      ∧ (runPick okResolver initMachine
          [PickEvent.buttonClick, PickEvent.mapClick ptA,
           PickEvent.mapClick ptB]).pairs
        = initMachine.pairs ++ [samplePair]
      ∧ (runPick okResolver initMachine
          [PickEvent.buttonClick, PickEvent.mapClick ptA,
           PickEvent.buttonClick]).state = PickState.idle
      ∧ (runPick okResolver initMachine
          [PickEvent.buttonClick, PickEvent.mapClick ptA,
           PickEvent.buttonClick]).pairs = initMachine.pairs
      ∧ (runPick okResolver initMachine
          [PickEvent.buttonClick, PickEvent.mapClick ptA,
           PickEvent.buttonClick]).tempPickup = none :=
  c4_picking_sequences_deterministic okResolver initMachine ptA ptB samplePair
    rfl rfl

/-- Helper: the insertion-point dropdown of a route with n stops offers
exactly the values 0, 1, ..., n. -/
lemma populateInsertionPointValues_eq_range (stops : List Stop) :
    populateInsertionPointValues stops = List.range (stops.length + 1) := by
  rw [populateInsertionPointValues, List.range_succ_eq_map]
  congr 1
  calc stops.enum.map (fun p => p.1 + 1)
      = ((List.range stops.length).zip stops).map (fun p => p.1 + 1) := by
        rw [List.enum_eq_zip_range]
    _ = (((List.range stops.length).zip stops).map Prod.fst).map
          (fun x => x + 1) := by
        rw [List.map_map]
        rfl
    _ = (List.range stops.length).map (fun x => x + 1) := by
        rw [List.map_fst_zip]
        rw [List.length_range]
    _ = (List.range stops.length).map Nat.succ := rfl

/-- C5, counterexample: for a target route of length 2, the parsed insertion
index 5 lies outside [0, 2], yet the request is dispatched with
insertion_point_index 5 — no InvalidInsertionPointError and no refusal to
send occurs. -/
theorem c5_out_of_range_index_sent :
    (solPrev.routes.headD (Route.mk [])).stops.length = 2
      ∧ handleDynamicInsertionSend (some 0) (some 5) [samplePair]
          (some solPrev) true
        = SendOutcome.sent (InsertionRequest.mk solPrev [samplePair] 0 5) := by
  decide

/-- C5 as amended: the only index-related validation the insertion handler
performs is the NaN check on the parsed value — a failed parse aborts with no
request, while every parsed integer index, inside or outside [0, n], is
accepted and sent verbatim; indices in [0, n] are exactly the option values
the insertion-point dropdown offers for a route with n stops, which is the
sole mechanism keeping interactive input in range. -/
theorem c5_index_only_parse_checked :
    ∀ (tv i : Int) (pairs : List PairInfo) (sol : Solution)
      (stops : List Stop),
      pairs ≠ [] →
      handleDynamicInsertionSend (some tv) (some i) pairs (some sol) true
          = SendOutcome.sent (InsertionRequest.mk sol pairs tv i)
        ∧ handleDynamicInsertionSend (some tv) none pairs (some sol) true
          = SendOutcome.noRequest "invalid_insertion_point"
        ∧ populateInsertionPointValues stops
          = List.range (stops.length + 1) := by
  intro tv i pairs sol stops h
  refine ⟨?_, rfl, populateInsertionPointValues_eq_range stops⟩
  cases pairs with
  | nil => exact absurd rfl h
  | cons a l => rfl

/-- C5 witness: the amended statement at a concrete backlog, index and
route. -/
theorem c5_index_only_parse_checked_witness :
    handleDynamicInsertionSend (some 0) (some 7) [unboundPair] (some solBad)
        true
      = SendOutcome.sent (InsertionRequest.mk solBad [unboundPair] 0 7)
      ∧ handleDynamicInsertionSend (some 0) none [unboundPair] (some solBad)
          true
        = SendOutcome.noRequest "invalid_insertion_point"
      ∧ populateInsertionPointValues [Stop.mk 0 0 [7], Stop.mk 1 1 [9]]
        = List.range 3 :=
  c5_index_only_parse_checked 0 7 [unboundPair] solBad
    [Stop.mk 0 0 [7], Stop.mk 1 1 [9]] (by decide)

/-- C6 (code_bug, evaluated at the failing input): after an error-status
insertion response, the prior solution is indeed retained as
currentVrpSolution, but the backlog of processed pairs is not: the error path
redisplays via displayTestResults, which resets dynamicLocationPairs to the
empty list, so the pair accumulated before the failed request is discarded
and cannot be retried without re-picking. -/
theorem c6_error_response_discards_backlog :
    stPrior.dynamicLocationPairs = [samplePair]
      ∧ (handleInsertionResponse stPrior
          (InsertResponse.error "infeasible")).currentVrpSolution = solPrev
      ∧ (handleInsertionResponse stPrior
          (InsertResponse.error "infeasible")).dynamicLocationPairs = [] := by
  decide

/-- C7, counterexample: with no guard on the pair-processing call, two
complete pick interactions performed before either resolve response arrives
leave two Candidate Resolver calls in flight simultaneously. -/
theorem c7_overlapping_resolver_calls :
    (runResolverFlow initResolverFlow overlapTrace).inflight = 2
      ∧ ¬ (runResolverFlow initResolverFlow overlapTrace).inflight ≤ 1 := by
  decide

/-- Helper invariant for the insertion flow: along any event trace free of
pair-processing completions, the pending insertion count stays at most one,
and whenever one insertion is pending the insert button is disabled. -/
lemma insertFlow_inflight_invariant :
    ∀ (es : List InsertEvent) (s : InsertFlow),
      s.inflight ≤ 1 →
      (s.inflight = 1 → s.insertDisabled = true) →
      (∀ e ∈ es, e ≠ InsertEvent.pairProcessed) →
      (runInsertFlow s es).inflight ≤ 1 := by
  intro es
  induction es with
  | nil =>
    intro s h1 h2 h3
    exact h1
  | cons e rest ih =>
    intro s h1 h2 h3
    have he : e ≠ InsertEvent.pairProcessed := h3 e (List.mem_cons_self e rest)
    have hrest : ∀ x ∈ rest, x ≠ InsertEvent.pairProcessed :=
      fun x hx => h3 x (List.mem_cons_of_mem e hx)
    show (runInsertFlow (stepInsertFlow s e) rest).inflight ≤ 1
    cases e with
    | insertClick =>
      by_cases hd : s.insertDisabled
      · have hstep : stepInsertFlow s InsertEvent.insertClick = s := by
          simp [stepInsertFlow, hd]
        rw [hstep]
        exact ih s h1 h2 hrest
      · have hz : s.inflight = 0 := by
          rcases Nat.lt_or_ge s.inflight 1 with hlt | hge
          · omega
          · exfalso
            have : s.inflight = 1 := by omega
            have := h2 this
            exact hd this
        have hstep : stepInsertFlow s InsertEvent.insertClick
            = InsertFlow.mk true (s.inflight + 1) := by
          simp [stepInsertFlow, hd]
        rw [hstep]
        exact ih (InsertFlow.mk true (s.inflight + 1))
          (show s.inflight + 1 ≤ 1 by omega) (fun _ => rfl) hrest
    | insertResponse =>
      have hstep : stepInsertFlow s InsertEvent.insertResponse
          = InsertFlow.mk true (s.inflight - 1) := rfl
      rw [hstep]
      exact ih (InsertFlow.mk true (s.inflight - 1))
        (show s.inflight - 1 ≤ 1 by omega) (fun _ => rfl) hrest
    | pairProcessed => exact absurd rfl he

/-- C7 as amended: the insert control is disabled for the duration of the
insertion call, so along any trace in which no pair-processing completion
re-enables the button mid-flight, at most one Insertion Request is ever in
flight; no such guard exists for the Candidate Resolver call, whose
invocations may overlap, and the insert control ends the call disabled (the
backlog is cleared on both response paths) rather than re-enabled on
failure. -/
theorem c7_insertions_never_overlap_without_reenable :
    ∀ (es : List InsertEvent) (d0 : Bool),
      (∀ e ∈ es, e ≠ InsertEvent.pairProcessed) →
      (runInsertFlow (InsertFlow.mk d0 0) es).inflight ≤ 1 := by
  intro es d0 h
  exact insertFlow_inflight_invariant es (InsertFlow.mk d0 0)
    (Nat.zero_le 1)
    (fun hx => by
      have hx0 : (0 : Nat) = 1 := hx
      omega) h

/-- C7 witness: the amended statement on a concrete trace of two insert
clicks around one response, starting with the button enabled. -/
theorem c7_insertions_never_overlap_witness :
    (runInsertFlow (InsertFlow.mk false 0)
        [InsertEvent.insertClick, InsertEvent.insertClick,
         InsertEvent.insertResponse, InsertEvent.insertClick]).inflight
      ≤ 1 :=
  c7_insertions_never_overlap_without_reenable
    [InsertEvent.insertClick, InsertEvent.insertClick,
     InsertEvent.insertResponse, InsertEvent.insertClick] false (by decide)

/-- C8 (confirmed, spec-modelled): for every picked position and every input
set of checkpoints, including the empty set, the resolved candidate list is a
permutation of the input sorted so that each candidate has strictly greater
confidence than every later one, or equal confidence and no greater Euclidean
distance to the position. -/
theorem c8_resolve_candidates_sorted :
    ∀ (pos : Coord) (cps : List Checkpoint),
      (resolveCandidates pos cps).Perm cps
        ∧ List.Pairwise (fun a b =>
            b.confidence < a.confidence
              ∨ (a.confidence = b.confidence
                  ∧ distSq pos a ≤ distSq pos b))
          (resolveCandidates pos cps) := by
  intro pos cps
  haveI : IsTotal Checkpoint (candBefore pos) := by
    constructor
    intro a b
    unfold candBefore
    omega
  haveI : IsTrans Checkpoint (candBefore pos) := by
    constructor
    intro a b c hab hbc
    unfold candBefore at hab hbc ⊢
    omega
  constructor
  · exact List.perm_insertionSort (candBefore pos) cps
  · exact List.sorted_insertionSort (candBefore pos) cps

/-- C9 (confirmed): a successful resolution whose pair carries zero candidate
checkpoints on both sides is handled as a normal success: the pair is appended
to the backlog unchanged (no checkpoint is fabricated), the processed-pair
list renders its empty candidate list as the literal None, and the coverage
table renders a cluster with no covering checkpoint entries (and not marked
missing) as Coverage Unknown. -/
theorem c9_empty_candidates_valid :
    ∀ (r : Coord → Coord → Option PairInfo) (m : PickingMachine)
      (pu dr : Coord) (pair : PairInfo),
      r pu dr = some pair →
      pair.pickup.checkpoints = [] →
      pair.dropoff.checkpoints = [] →
      processNewPair r m pu dr = { m with pairs := m.pairs ++ [pair] }
        ∧ checkpointListText pair.pickup.checkpoints = "None"
        ∧ checkpointListText pair.dropoff.checkpoints = "None"
        ∧ coverageRowStatus false [] = RowStatus.unknown := by
  intro r m pu dr pair hr h1 h2
  refine ⟨?_, ?_, ?_, rfl⟩
  · simp [processNewPair, hr]
  · rw [h1]
    rfl
  · rw [h2]
    rfl

/-- C9 witness: a resolver returning a pair with empty candidate lists, run
on the initial machine at concrete coordinates. -/
theorem c9_empty_candidates_valid_witness :
    processNewPair emptyCandResolver initMachine ptA ptB
        = { initMachine with pairs := initMachine.pairs ++ [unboundPair] }
      ∧ checkpointListText unboundPair.pickup.checkpoints = "None"
      ∧ checkpointListText unboundPair.dropoff.checkpoints = "None"
      ∧ coverageRowStatus false [] = RowStatus.unknown :=
  c9_empty_candidates_valid emptyCandResolver initMachine ptA ptB unboundPair
    rfl rfl rfl

/-- C10 (confirmed): every call of displayTestResults, whatever the solution
and test type, resets the backlog dynamicLocationPairs to the empty list and
clears the pair-list display; in particular the error path of the insertion
handler, which redisplays the retained solution, discards all accumulated
pairs. -/
theorem c10_display_resets_backlog :
    ∀ (st : ClientState) (sol : Solution) (testType msg : String),
      (displayTestResults st sol testType).dynamicLocationPairs = []
        ∧ (displayTestResults st sol testType).dynamicListHtml = []
        ∧ (handleInsertionResponse st
            (InsertResponse.error msg)).dynamicLocationPairs = []
        ∧ (handleInsertionResponse st
            (InsertResponse.error msg)).dynamicListHtml = [] := by
  intro st sol testType msg
  exact ⟨rfl, rfl, rfl, rfl⟩

end VrpTesting
